import Mathlib

/-!
# Verification of the composer state container (react-composition-pattern)

Shallow embedding of the message-composer state container and its two
realizations:

* realization (b): the `useState`-based `ComposerProvider` (the original
  context-value provider), whose actions are `updateContent`,
  `addAttachment`, `removeAttachment`, `updateMetadata`, `reset` and
  `submit`;
* realization (a): the Zustand vanilla store created by
  `createComposerStore` together with the `wrappedSubmit` bound by the
  store-based `ComposerProvider` (namespace `ComposerStore` below).

JavaScript objects with string keys are embedded as association lists with
JS object-literal semantics: a spread `{...prev, [key]: value}` updates the
first occurrence of `key` in place (JS objects have unique keys) or appends
the new key at the end, and the handler payload `{content, attachments,
metadata, ...extra}` is a left-to-right spread where `extra` overrides.
The single-threaded cooperative execution model lets `submit` be embedded
as a pure state transformer that also returns the list of payloads the
external handler was invoked with (in invocation order).
-/

/-- An attachment entry `{id, name, ...}`. -/
structure Attachment where
  id : String
  name : String
deriving DecidableEq, Repr

/-- Values appearing in a JS object handed to the submit handler. -/
inductive JSValue where
  | vStr : String → JSValue
  | vAttachments : List Attachment → JSValue
  | vMeta : List (String × String) → JSValue
deriving DecidableEq, Repr

/-- A JS object with string keys, embedded as an association list. -/
abbrev JSObject := List (String × JSValue)

/-- JS property lookup `o[k]` on an association-list object: first match wins
(JS objects have unique keys, so at most one match exists). -/
def jsGet {α : Type} : List (String × α) → String → Option α
  | [], _ => none
  | (k', v) :: rest, k => if k' = k then some v else jsGet rest k

/-- JS object update `{...prev, [k]: v}` for unique-keyed objects: an existing
key keeps its position and takes the new value; a fresh key is appended. -/
def jsObjInsert {α : Type} : List (String × α) → String → α → List (String × α)
  | [], k, v => [(k, v)]
  | (k', v') :: rest, k, v =>
    if k' = k then (k, v) :: rest else (k', v') :: jsObjInsert rest k v

/-- JS object spread `{...base, ...extra}`: each property of `extra` is laid
over `base` left to right, so `extra` overrides overlapping keys. -/
def jsSpread (base extra : JSObject) : JSObject :=
  extra.foldl (fun acc kv => jsObjInsert acc kv.1 kv.2) base

/-- The Composition Session State: `content`, `attachments`, `metadata`,
`isSubmitting` (part_001 lines 22-25 / part_004 lines 6-9). -/
structure ComposerState where
  content : String
  attachments : List Attachment
  metadata : List (String × String)
  isSubmitting : Bool
deriving DecidableEq, Repr

/-- Initial state of realization (b): `useState(initialValue)`, `useState([])`,
`useState({})`, `useState(false)` (part_001 lines 22-25). -/
def initialComposerState (initialValue : String) : ComposerState :=
  { content := initialValue, attachments := [], metadata := [], isSubmitting := false }

/-- `updateContent(value)` of realization (b): `setContent(value)`
(part_001 lines 28-30). -/
def updateContent (value : String) (s : ComposerState) : ComposerState :=
  { s with content := value }

/-- `addAttachment(attachment)` of realization (b):
`setAttachments((prev) => [...prev, attachment])` (part_001 lines 32-34). -/
def addAttachment (attachment : Attachment) (s : ComposerState) : ComposerState :=
  { s with attachments := s.attachments ++ [attachment] }

/-- `removeAttachment(attachmentId)` of realization (b):
`setAttachments((prev) => prev.filter((a) => a.id !== attachmentId))`
(part_001 lines 36-38). -/
def removeAttachment (attachmentId : String) (s : ComposerState) : ComposerState :=
  { s with attachments := s.attachments.filter (fun a => a.id != attachmentId) }

/-- `updateMetadata(key, value)` of realization (b):
`setMetadata((prev) => ({...prev, [key]: value}))` (part_001 lines 40-45). -/
def updateMetadata (key value : String) (s : ComposerState) : ComposerState :=
  { s with metadata := jsObjInsert s.metadata key value }

/-- `reset()` of realization (b): `setContent('')`, `setAttachments([])`,
`setMetadata({})`; `isSubmitting` is not touched (part_001 lines 70-74). -/
def reset (s : ComposerState) : ComposerState :=
  { s with content := "", attachments := [], metadata := [] }

/-- The snapshot object `{content, attachments, metadata}` read from the
state when `submit` builds the handler payload. -/
def snapshotObject (s : ComposerState) : JSObject :=
  [("content", JSValue.vStr s.content),
   ("attachments", JSValue.vAttachments s.attachments),
   ("metadata", JSValue.vMeta s.metadata)]

/-- The payload handed to the external handler:
`{content, attachments, metadata, ...additionalData}`. -/
def submitPayload (s : ComposerState) (additionalData : JSObject) : JSObject :=
  jsSpread (snapshotObject s) additionalData

/-- `submit(additionalData = {})` of realization (b) (part_001 lines 47-68):
`setIsSubmitting(true)`; `await onSubmit({content, attachments, metadata,
...additionalData})`; on success `setContent('')`, `setAttachments([])`,
`setMetadata({})`; on failure the error is logged and swallowed (the
embedding returns normally in both cases, mirroring catch-and-log); finally
`setIsSubmitting(false)`. Returns the settled state and the list of payloads
the handler was invoked with. -/
def submit (onSubmit : JSObject → Except String Unit) (additionalData : JSObject)
    (s : ComposerState) : ComposerState × List JSObject :=
  let s1 : ComposerState := { s with isSubmitting := true }
  let payload : JSObject := submitPayload s additionalData
  match onSubmit payload with
  | Except.ok _ =>
    let s2 := { s1 with content := "" }
    let s3 := { s2 with attachments := [] }
    let s4 := { s3 with metadata := [] }
    ({ s4 with isSubmitting := false }, [payload])
  | Except.error _ =>
    ({ s1 with isSubmitting := false }, [payload])

/-- `useComposer()` (ComposerContextValue, quoted at AdvancedPatterns.jsx
lines 292-298): reads the context, which is `null` (here `none`) outside any
`ComposerProvider`, and throws a configuration error in that case; otherwise
returns the context value unchanged. -/
def useComposer {α : Type} (context : Option α) : Except String α :=
  match context with
  | none => Except.error "useComposer must be used within ComposerProvider"
  | some c => Except.ok c

namespace ComposerStore

/-- Initial state built by `createComposerStore(initialValue)`
(part_004 lines 3-9). -/
def createComposerStore (initialValue : String) : ComposerState :=
  { content := initialValue, attachments := [], metadata := [], isSubmitting := false }

/-- Store action `updateContent`: `set({content: value})` (part_004 line 12). -/
def updateContent (value : String) (s : ComposerState) : ComposerState :=
  { s with content := value }

/-- Store action `addAttachment`: `set((state) => ({attachments:
[...state.attachments, attachment]}))` (part_004 lines 14-16). -/
def addAttachment (attachment : Attachment) (s : ComposerState) : ComposerState :=
  { s with attachments := s.attachments ++ [attachment] }

/-- Store action `removeAttachment`: `set((state) => ({attachments:
state.attachments.filter((a) => a.id !== attachmentId)}))`
(part_004 lines 18-20). -/
def removeAttachment (attachmentId : String) (s : ComposerState) : ComposerState :=
  { s with attachments := s.attachments.filter (fun a => a.id != attachmentId) }

/-- Store action `updateMetadata`: `set((state) => ({metadata:
{...state.metadata, [key]: value}}))` (part_004 lines 22-27). -/
def updateMetadata (key value : String) (s : ComposerState) : ComposerState :=
  { s with metadata := jsObjInsert s.metadata key value }

/-- Store action `reset`: `set({content: '', attachments: [], metadata: {}})`;
Zustand `set` merges, so `isSubmitting` is untouched (part_004 lines 29-33). -/
def reset (s : ComposerState) : ComposerState :=
  { s with content := "", attachments := [], metadata := [] }

/-- `wrappedSubmit(additionalData = {})` bound by the store-based provider
(ComposerContext.jsx lines 25-46): `store.setState({isSubmitting: true})`;
snapshot via `store.getState()`; `await onSubmit({content, attachments,
metadata, ...additionalData})`; on success `reset()`; on failure log and
swallow; finally `store.setState({isSubmitting: false})`. -/
def wrappedSubmit (onSubmit : JSObject → Except String Unit) (additionalData : JSObject)
    (s : ComposerState) : ComposerState × List JSObject :=
  let s1 : ComposerState := { s with isSubmitting := true }
  let payload : JSObject := submitPayload s1 additionalData
  match onSubmit payload with
  | Except.ok _ =>
    ({ reset s1 with isSubmitting := false }, [payload])
  | Except.error _ =>
    ({ s1 with isSubmitting := false }, [payload])

end ComposerStore

/-- Modelled from the spec: "removes the first (and expected-only) entry whose
id matches" — the spec-side removal used to compare against the code's
filter-based `removeAttachment` (which is not in src/ as a first-removal; the
code filters). Drops only the first entry whose id matches, if any. -/
def removeFirstById (attachmentId : String) : List Attachment → List Attachment
  | [] => []
  | a :: rest =>
    if a.id = attachmentId then rest else a :: removeFirstById attachmentId rest

/-- The synchronous mutations of the state container (spec section 4.1) that a
consumer can trigger; used to quantify over "every mutation". -/
inductive Mutation where
  | updateContent (value : String)
  | addAttachment (attachment : Attachment)
  | removeAttachment (attachmentId : String)
  | updateMetadata (key value : String)
  | reset
deriving DecidableEq, Repr

/-- Effect of one mutation on the session state, dispatching to the container
actions. -/
def applyMutation (m : Mutation) (s : ComposerState) : ComposerState :=
  match m with
  | Mutation.updateContent v => updateContent v s
  | Mutation.addAttachment a => addAttachment a s
  | Mutation.removeAttachment i => removeAttachment i s
  | Mutation.updateMetadata k v => updateMetadata k v s
  | Mutation.reset => reset s

/-- Modelled from the spec: the store state threaded to selector-based
consumers. Every mutation replaces the state object with a fresh one (Zustand
`set` merges into a new object); `version` models that object identity, so two
`StoreObject`s are equal exactly when a consumer comparing by `Object.is`
would see the same object for the whole state. -/
structure StoreObject where
  data : ComposerState
  version : Nat
deriving DecidableEq, Repr

/-- Modelled from the spec: applying a mutation through the store's `set`
replaces the state object (fresh identity) holding the mutated data. -/
def storeSet (m : Mutation) (st : StoreObject) : StoreObject :=
  { data := applyMutation m st.data, version := st.version + 1 }

/-- Selector of a consumer that reads only `content`. -/
def selectContent (st : StoreObject) : String :=
  st.data.content

/-- Selection of a consumer with no selector: the whole state object,
compared by identity. -/
def selectWhole (st : StoreObject) : StoreObject :=
  st

/-- Modelled from the spec: "on each mutation, recompute each subscriber's
selected value and only notify (re-render) if it changed by value comparison"
(spec section 9); a consumer is re-evaluated between two store states exactly
when its selected value differs. -/
def reEvaluated {α : Type} (sel : StoreObject → α) (old new : StoreObject) : Prop :=
  sel old ≠ sel new

/-- Sequence of `addAttachment` calls applied in order. -/
def addAll (items : List Attachment) (s : ComposerState) : ComposerState :=
  items.foldl (fun st a => addAttachment a st) s

/-! ## Helper lemmas -/

lemma jsGet_jsObjInsert_same {α : Type} (o : List (String × α)) (k : String) (v : α) :
    jsGet (jsObjInsert o k v) k = some v := by
  induction o with
  | nil => simp [jsObjInsert, jsGet]
  | cons p rest ih =>
    by_cases h : p.1 = k
    · simp [jsObjInsert, jsGet, h]
    · simp [jsObjInsert, jsGet, h, ih]

lemma jsGet_jsObjInsert_other {α : Type} (o : List (String × α)) (k k' : String) (v : α)
    (h : k' ≠ k) : jsGet (jsObjInsert o k v) k' = jsGet o k' := by
  have hkk : k ≠ k' := fun hh => h hh.symm
  induction o with
  | nil => simp [jsObjInsert, jsGet, hkk]
  | cons p rest ih =>
    obtain ⟨pk, pv⟩ := p
    by_cases hp : pk = k
    · subst hp
      simp [jsObjInsert, jsGet, hkk]
    · simp [jsObjInsert, jsGet, hp, ih]

lemma jsGet_jsSpread_absent (base extra : JSObject) (k : String)
    (h : ∀ p ∈ extra, p.1 ≠ k) : jsGet (jsSpread base extra) k = jsGet base k := by
  induction extra generalizing base with
  | nil => rfl
  | cons p rest ih =>
    have hp : p.1 ≠ k := h p (List.mem_cons_self p rest)
    have hrest : ∀ q ∈ rest, q.1 ≠ k := fun q hq => h q (List.mem_cons_of_mem p hq)
    show jsGet (jsSpread (jsObjInsert base p.1 p.2) rest) k = jsGet base k
    rw [ih (jsObjInsert base p.1 p.2) hrest,
      jsGet_jsObjInsert_other base p.1 k p.2 (fun hh => hp hh.symm)]

lemma jsGet_jsSpread_present (base extra : JSObject) (k : String) (v : JSValue)
    (hnd : (extra.map Prod.fst).Nodup) (h : jsGet extra k = some v) :
    jsGet (jsSpread base extra) k = some v := by
  induction extra generalizing base with
  | nil => simp [jsGet] at h
  | cons p rest ih =>
    rw [List.map_cons, List.nodup_cons] at hnd
    obtain ⟨pk, pv⟩ := p
    by_cases hp : pk = k
    · have habs : ∀ q ∈ rest, q.1 ≠ k := by
        intro q hq hqk
        have hmem : q.1 ∈ List.map Prod.fst rest := List.mem_map_of_mem Prod.fst hq
        rw [hqk, ← hp] at hmem
        exact hnd.1 hmem
      have hv : pv = v := by
        have hpk : jsGet ((pk, pv) :: rest) k = some pv := by simp [jsGet, hp]
        rw [h] at hpk
        exact (Option.some_inj.mp hpk).symm
      subst hv
      show jsGet (jsSpread (jsObjInsert base pk pv) rest) k = some pv
      rw [jsGet_jsSpread_absent (jsObjInsert base pk pv) rest k habs, hp,
        jsGet_jsObjInsert_same]
    · have hrest : jsGet rest k = some v := by
        have hpk : jsGet ((pk, pv) :: rest) k = jsGet rest k := by simp [jsGet, hp]
        rw [← hpk, h]
      exact ih (jsObjInsert base pk pv) hnd.2 hrest

lemma filter_eq_removeFirstById (l : List Attachment) (attachmentId : String)
    (hu : (l.map Attachment.id).Nodup) :
    l.filter (fun a => a.id != attachmentId) = removeFirstById attachmentId l := by
  induction l with
  | nil => rfl
  | cons a rest ih =>
    rw [List.map_cons, List.nodup_cons] at hu
    by_cases h : a.id = attachmentId
    · have : ∀ b ∈ rest, (b.id != attachmentId) = true := by
        intro b hb
        have : b.id ≠ a.id := fun hh => hu.1 (hh ▸ List.mem_map_of_mem Attachment.id hb)
        simp [bne_iff_ne, h ▸ this]
      simp [removeFirstById, h, List.filter_cons, List.filter_eq_self.mpr this]
    · simp [removeFirstById, h, List.filter_cons, bne_iff_ne, ih hu.2]

lemma addAll_attachments (items : List Attachment) (s : ComposerState) :
    (addAll items s).attachments = s.attachments ++ items := by
  induction items generalizing s with
  | nil => simp [addAll]
  | cons a rest ih =>
    show (addAll rest (addAttachment a s)).attachments = s.attachments ++ a :: rest
    rw [ih (addAttachment a s)]
    simp [addAttachment]

/-! ## Claims -/

/-- C1: for every container state and extra-data mapping, when the external
handler resolves successfully, submit invokes the handler exactly once with
the snapshot `{content, attachments, metadata}` merged with the extra data,
and after submit settles the state has empty content, no attachments, empty
metadata, and `isSubmitting = false`. -/
theorem submit_success_invokes_once_and_resets (s : ComposerState) (extra : JSObject)
    (onSubmit : JSObject → Except String Unit)
    (hok : onSubmit (submitPayload s extra) = Except.ok ()) :
    submit onSubmit extra s =
      ({ content := "", attachments := [], metadata := [], isSubmitting := false },
       [submitPayload s extra]) := by
  simp [submit, hok]

/-- C1 witness: the spec scenario — content `"Hello team!"`, handler resolves;
after submit settles the state is fully cleared with `isSubmitting = false`,
and the handler was invoked exactly once with
`{content: "Hello team!", attachments: [], metadata: {}}`. -/
theorem submit_success_invokes_once_and_resets_witness :
    submit (fun _ => Except.ok ()) []
      { content := "Hello team!", attachments := [], metadata := [],
        isSubmitting := false } =
      ({ content := "", attachments := [], metadata := [], isSubmitting := false },
       [[("content", JSValue.vStr "Hello team!"),
         ("attachments", JSValue.vAttachments []),
         ("metadata", JSValue.vMeta [])]]) :=
  submit_success_invokes_once_and_resets _ [] _ rfl

/-- C2: when the external handler rejects, submit swallows the error (the
embedding returns normally), leaves content, attachments and metadata at
their pre-submit values (no reset), and settles with `isSubmitting = false`. -/
theorem submit_failure_preserves_state (s : ComposerState) (extra : JSObject)
    (onSubmit : JSObject → Except String Unit) (e : String)
    (herr : onSubmit (submitPayload s extra) = Except.error e) :
    submit onSubmit extra s =
      ({ s with isSubmitting := false }, [submitPayload s extra]) := by
  simp [submit, herr]

/-- C2 witness: a handler that rejects leaves the concrete pre-submit state
untouched apart from `isSubmitting` being cleared. -/
theorem submit_failure_preserves_state_witness :
    submit (fun _ => Except.error "network down") []
      { content := "draft", attachments := [{ id := "1", name := "a.png" }],
        metadata := [("thread", "t1")], isSubmitting := false } =
      ({ content := "draft", attachments := [{ id := "1", name := "a.png" }],
         metadata := [("thread", "t1")], isSubmitting := false },
       [[("content", JSValue.vStr "draft"),
         ("attachments", JSValue.vAttachments [{ id := "1", name := "a.png" }]),
         ("metadata", JSValue.vMeta [("thread", "t1")])]]) :=
  submit_failure_preserves_state _ [] _ "network down" rfl

/-- C3 counterexample: with two attachments sharing id `"1"`,
`removeAttachment "1"` removes both entries — the resulting sequence is
empty, not the one-element sequence holding the second entry, so "only the
first such entry is removed" fails on the code's `filter`. -/
theorem removeAttachment_counterexample :
    (removeAttachment "1"
        { content := "", attachments := [{ id := "1", name := "a" }, { id := "1", name := "b" }],
          metadata := [], isSubmitting := false }).attachments = [] ∧
    (removeAttachment "1"
        { content := "", attachments := [{ id := "1", name := "a" }, { id := "1", name := "b" }],
          metadata := [], isSubmitting := false }).attachments ≠
      [{ id := "1", name := "b" }] := by
  decide

/-- C3 amended: `removeAttachment id` removes every entry whose id matches —
which is exactly the first (and only) matching entry whenever attachment ids
are unique, the expected case — and is a no-op (not an error) when no entry
matches; after the call no entry with the given id remains. -/
theorem removeAttachment_amended (s : ComposerState) (attachmentId : String) :
    ((s.attachments.map Attachment.id).Nodup →
        (removeAttachment attachmentId s).attachments =
          removeFirstById attachmentId s.attachments) ∧
    ((∀ a ∈ s.attachments, a.id ≠ attachmentId) → removeAttachment attachmentId s = s) ∧
    (∀ a ∈ (removeAttachment attachmentId s).attachments, a.id ≠ attachmentId) := by
  refine ⟨fun hu => filter_eq_removeFirstById s.attachments attachmentId hu, ?_, ?_⟩
  · intro hno
    have hself : s.attachments.filter (fun a => a.id != attachmentId) = s.attachments :=
      List.filter_eq_self.mpr (fun a ha => by simp [bne_iff_ne]; exact hno a ha)
    simp [removeAttachment, hself]
  · intro a ha
    simp only [removeAttachment, List.mem_filter] at ha
    exact bne_iff_ne.mp ha.2

/-- C3 amended witness: removing a non-existent id from a concrete state
leaves the state unchanged. -/
theorem removeAttachment_amended_witness :
    removeAttachment "3"
      { content := "c", attachments := [{ id := "1", name := "a" }, { id := "2", name := "b" }],
        metadata := [], isSubmitting := false } =
      { content := "c", attachments := [{ id := "1", name := "a" }, { id := "2", name := "b" }],
        metadata := [], isSubmitting := false } :=
  (removeAttachment_amended _ "3").2.1 (by decide)

/-- C5: reset clears content to the empty string, attachments to the empty
sequence and metadata to the empty mapping, and leaves `isSubmitting`
unchanged, for every prior state. -/
theorem reset_clears_and_preserves_isSubmitting (s : ComposerState) :
    reset s =
      { content := "", attachments := [], metadata := [],
        isSubmitting := s.isSubmitting } :=
  rfl

/-- C6: updateMetadata shallow-merges `{k: v}` into the metadata mapping,
silently overwriting an existing entry for `k`; after `updateMetadata k v`
then `updateMetadata k v2`, key `k` maps to `v2` and every other key maps to
the value it had before, and the non-metadata fields are untouched. -/
theorem updateMetadata_merge_semantics (s : ComposerState) (k k' v v2 : String)
    (hk : k' ≠ k) :
    jsGet (updateMetadata k v s).metadata k = some v ∧
    jsGet (updateMetadata k v2 (updateMetadata k v s)).metadata k = some v2 ∧
    jsGet (updateMetadata k v2 (updateMetadata k v s)).metadata k' = jsGet s.metadata k' ∧
    (updateMetadata k v2 (updateMetadata k v s)).content = s.content ∧
    (updateMetadata k v2 (updateMetadata k v s)).attachments = s.attachments ∧
    (updateMetadata k v2 (updateMetadata k v s)).isSubmitting = s.isSubmitting := by
  refine ⟨jsGet_jsObjInsert_same _ _ _, jsGet_jsObjInsert_same _ _ _, ?_, rfl, rfl, rfl⟩
  show jsGet (jsObjInsert (jsObjInsert s.metadata k v) k v2) k' = jsGet s.metadata k'
  rw [jsGet_jsObjInsert_other _ _ _ _ hk, jsGet_jsObjInsert_other _ _ _ _ hk]

/-- C6 witness: overwriting key `"a"` twice on a concrete metadata mapping
yields the second value at `"a"` and leaves key `"x"` untouched. -/
theorem updateMetadata_merge_semantics_witness :
    jsGet (updateMetadata "a" "1"
      { content := "hi", attachments := [], metadata := [("x", "y")],
        isSubmitting := false }).metadata "a" = some "1" ∧
    jsGet (updateMetadata "a" "2" (updateMetadata "a" "1"
      { content := "hi", attachments := [], metadata := [("x", "y")],
        isSubmitting := false })).metadata "a" = some "2" ∧
    jsGet (updateMetadata "a" "2" (updateMetadata "a" "1"
      { content := "hi", attachments := [], metadata := [("x", "y")],
        isSubmitting := false })).metadata "x" = some "y" ∧
    (updateMetadata "a" "2" (updateMetadata "a" "1"
      { content := "hi", attachments := [], metadata := [("x", "y")],
        isSubmitting := false })).content = "hi" ∧
    (updateMetadata "a" "2" (updateMetadata "a" "1"
      { content := "hi", attachments := [], metadata := [("x", "y")],
        isSubmitting := false })).attachments = [] ∧
    (updateMetadata "a" "2" (updateMetadata "a" "1"
      { content := "hi", attachments := [], metadata := [("x", "y")],
        isSubmitting := false })).isSubmitting = false :=
  updateMetadata_merge_semantics
    { content := "hi", attachments := [], metadata := [("x", "y")],
      isSubmitting := false } "a" "x" "1" "2" (by decide)

/-- C7: starting from an empty attachment sequence, any finite sequence of
addAttachment calls with unique ids yields the items in call order, with
length equal to the number of calls; no deduplication, every call succeeds. -/
theorem addAttachment_preserves_call_order (items : List Attachment) (s : ComposerState)
    (h0 : s.attachments = []) (_hu : (items.map Attachment.id).Nodup) :
    (addAll items s).attachments = items ∧
    (addAll items s).attachments.length = items.length := by
  have hx := addAll_attachments items s
  rw [h0, List.nil_append] at hx
  exact ⟨hx, by rw [hx]⟩

/-- C7 witness: two addAttachment calls with distinct ids on the initial
state produce both items in call order. -/
theorem addAttachment_preserves_call_order_witness :
    (addAll [{ id := "1", name := "a" }, { id := "2", name := "b" }]
        (initialComposerState "")).attachments =
      [{ id := "1", name := "a" }, { id := "2", name := "b" }] ∧
    (addAll [{ id := "1", name := "a" }, { id := "2", name := "b" }]
        (initialComposerState "")).attachments.length = 2 :=
  addAttachment_preserves_call_order _ _ rfl (by decide)

/-- C8: invoked outside any provider scope, where the context holds its
default value (`null`, embedded as `none`), useComposer fails with the
configuration error instead of returning a usable value. -/
theorem useComposer_fails_outside_provider :
    useComposer (none : Option ComposerState) =
      Except.error "useComposer must be used within ComposerProvider" :=
  rfl

/-- C9: the useState-based realization (top-level actions, from part_001) and
the Zustand-store realization (`ComposerStore`, from part_004 and the
store-based provider) agree on the consumer-facing contract: the same initial
value yields the same initial state, and each of the six operations produces
the same observable `{content, attachments, metadata, isSubmitting}` from any
state, for every input — they differ only in re-render granularity. -/
theorem store_and_state_realizations_agree (v : String) (a : Attachment)
    (attachmentId k mv : String) (onSubmit : JSObject → Except String Unit)
    (extra : JSObject) (s : ComposerState) :
    ComposerStore.createComposerStore v = initialComposerState v ∧
    ComposerStore.updateContent v s = updateContent v s ∧
    ComposerStore.addAttachment a s = addAttachment a s ∧
    ComposerStore.removeAttachment attachmentId s = removeAttachment attachmentId s ∧
    ComposerStore.updateMetadata k mv s = updateMetadata k mv s ∧
    ComposerStore.reset s = reset s ∧
    ComposerStore.wrappedSubmit onSubmit extra s = submit onSubmit extra s := by
  refine ⟨rfl, rfl, rfl, rfl, rfl, rfl, ?_⟩
  show (match onSubmit (submitPayload { s with isSubmitting := true } extra) with
    | Except.ok _ =>
      ({ ComposerStore.reset { s with isSubmitting := true } with isSubmitting := false },
       [submitPayload { s with isSubmitting := true } extra])
    | Except.error _ =>
      ({ s with isSubmitting := false },
       [submitPayload { s with isSubmitting := true } extra])) = submit onSubmit extra s
  have hpay : submitPayload { s with isSubmitting := true } extra = submitPayload s extra := rfl
  rw [hpay]
  cases honSubmit : onSubmit (submitPayload s extra) <;>
    simp [submit, ComposerStore.reset, honSubmit]

/-- C10: in the payload handed to the external handler, caller-supplied extra
data takes precedence over the state snapshot on every overlapping key (the
handler sees the extra value, e.g. an overriding `content`), while on success
the container state itself is reset to the cleared state independently of the
extra data. -/
theorem submit_extra_overrides_snapshot (s : ComposerState) (extra : JSObject)
    (k : String) (w : JSValue) (onSubmit : JSObject → Except String Unit)
    (hnd : (extra.map Prod.fst).Nodup) (hw : jsGet extra k = some w)
    (hok : onSubmit (submitPayload s extra) = Except.ok ()) :
    jsGet (submitPayload s extra) k = some w ∧
    (submit onSubmit extra s).1 =
      { content := "", attachments := [], metadata := [], isSubmitting := false } := by
  constructor
  · exact jsGet_jsSpread_present (snapshotObject s) extra k w hnd hw
  · simp [submit, hok]

/-- C10 witness: `submit({content: "override"})` on a container with content
`"hi"` delivers `"override"` as the payload's content to the handler, while
the container itself is still reset to empty content on success. -/
theorem submit_extra_overrides_snapshot_witness :
    jsGet (submitPayload
        { content := "hi", attachments := [], metadata := [], isSubmitting := false }
        [("content", JSValue.vStr "override")]) "content" =
      some (JSValue.vStr "override") ∧
    (submit (fun _ => Except.ok ()) [("content", JSValue.vStr "override")]
        { content := "hi", attachments := [], metadata := [],
          isSubmitting := false }).1 =
      { content := "", attachments := [], metadata := [], isSubmitting := false } :=
  submit_extra_overrides_snapshot _ _ "content" _ _ (by decide) (by decide) rfl

/-- C4: under the selector-based subscription model, a consumer selecting only
`content` is never re-evaluated when only `metadata` is mutated, while a
consumer selecting the whole state (no selector, compared by object identity)
is re-evaluated on every mutation. -/
theorem useComposer_selector_granularity :
    (∀ (st : StoreObject) (k mv : String),
        ¬ reEvaluated selectContent st (storeSet (Mutation.updateMetadata k mv) st)) ∧
    (∀ (st : StoreObject) (m : Mutation),
        reEvaluated selectWhole st (storeSet m st)) := by
  constructor
  · intro st k mv h
    exact h rfl
  · intro st m h
    have hv := congrArg StoreObject.version h
    simp [selectWhole, storeSet] at hv

/-- C4 witness: on a concrete store state, a metadata mutation does not
re-evaluate the content-selecting consumer, while a reset mutation does
re-evaluate the whole-state consumer. -/
theorem useComposer_selector_granularity_witness :
    ¬ reEvaluated selectContent
        { data := initialComposerState "", version := 0 }
        (storeSet (Mutation.updateMetadata "k" "v")
          { data := initialComposerState "", version := 0 }) ∧
    reEvaluated selectWhole
        { data := initialComposerState "", version := 0 }
        (storeSet Mutation.reset { data := initialComposerState "", version := 0 }) :=
  ⟨useComposer_selector_granularity.1 _ "k" "v",
   useComposer_selector_granularity.2 _ Mutation.reset⟩
